import Mathlib

/-!
Shallow embedding of the multimodal content-analysis pipeline
(`backend/python/multimodal_processor.py`) together with theorems settling
the specification claims about it.

Modelling conventions:
* decoded images are flat lists of RGB pixels (`List RGB`);
* external capability providers (ML models, codecs, the speech recogniser,
  `librosa`, `moviepy`) are passed in as optional, fallible functions —
  `Option`/`Except` values — exactly mirroring the `if name in self.models`
  presence checks and the exceptions the collaborators may raise;
* machine floats are modelled by `ℚ`;
* the temporary files created under the scratch directory are tracked
  explicitly: the audio/video pipelines return the list of scratch files
  still existing after the invocation, mirroring each `open`/`unlink` and
  every `try`/`finally` of the source.
-/

/-- An RGB pixel of a decoded image (values 0–255 in the source). -/
structure RGB where
  r : Nat
  g : Nat
  b : Nat
deriving DecidableEq, Repr

/-- A scene label with its hard-coded confidence
(`multimodal_processor.py` lines 292–300). -/
structure Scene where
  name : String
  confidence : ℚ
deriving DecidableEq, Repr

/-- A detected face record (`multimodal_processor.py` lines 246–256); the
confidence is the hard-coded `0.8`, the box is `(x, y, width, height)`. -/
structure Face where
  confidence : ℚ
  x : Nat
  y : Nat
  width : Nat
  height : Nat
deriving DecidableEq, Repr

/-! ## Color analysis (`process_image`, lines 269–290)

The source counts exact pixel-value frequencies with `np.unique`, sorts by
count (`np.argsort(counts)[-5:][::-1]`) and reports the five most frequent
colors with their percentage of total pixels. -/

/-- The unique pixel values of the image together with their frequencies —
the embedding of `np.unique(pixels, axis=0, return_counts=True)`. -/
def colorCounts (pixels : List RGB) : List (RGB × Nat) :=
  pixels.dedup.map (fun c => (c, pixels.count c))

/-- Descending-by-count order on `(color, count)` pairs, used to embed
`np.argsort(counts)[-5:][::-1]`. -/
def cntGE (a b : RGB × Nat) : Prop := b.2 ≤ a.2

instance : DecidableRel cntGE := fun a b => Nat.decLe b.2 a.2

instance : IsTotal (RGB × Nat) cntGE := ⟨fun a b => Nat.le_total b.2 a.2⟩

instance : IsTrans (RGB × Nat) cntGE := ⟨fun _ _ _ h1 h2 => Nat.le_trans h2 h1⟩

/-- Color analysis (`process_image`, lines 269–290): the at-most-five
highest-frequency pixel values, ordered by frequency descending, each paired
with its percentage of total pixels (`counts / total_pixels * 100`). -/
def colorAnalysis (pixels : List RGB) : List (RGB × ℚ) :=
  ((List.insertionSort cntGE (colorCounts pixels)).take 5).map
    (fun p => (p.1, (p.2 : ℚ) / (pixels.length : ℚ) * 100))

/-! ## Scene heuristic (`process_image`, lines 292–300) -/

/-- Average of the red channel over the decoded image
(component 0 of `np.mean(image_rgb, axis=(0, 1))`). -/
def avgR (pixels : List RGB) : ℚ :=
  ((pixels.map (fun p => (p.r : ℚ))).sum) / (pixels.length : ℚ)

/-- Average of the green channel (component 1 of the mean color). -/
def avgG (pixels : List RGB) : ℚ :=
  ((pixels.map (fun p => (p.g : ℚ))).sum) / (pixels.length : ℚ)

/-- Average of the blue channel (component 2 of the mean color). -/
def avgB (pixels : List RGB) : ℚ :=
  ((pixels.map (fun p => (p.b : ℚ))).sum) / (pixels.length : ℚ)

/-- The scene heuristic (`process_image`, lines 292–300): `outdoor` with
confidence 0.7 when the blue average exceeds 150 and the green average
exceeds 100, else `indoor` with confidence 0.6 when the mean of the three
channel averages is below 100, else `mixed` with confidence 0.5.  Exactly
one label is appended to `results['scenes']`. -/
def sceneHeuristic (pixels : List RGB) : List Scene :=
  if 150 < avgB pixels ∧ 100 < avgG pixels then
    [{ name := "outdoor", confidence := 7/10 }]
  else if (avgR pixels + avgG pixels + avgB pixels) / 3 < 100 then
    [{ name := "indoor", confidence := 6/10 }]
  else
    [{ name := "mixed", confidence := 5/10 }]

/-! ## Image pipeline (`process_image`, lines 217–326) -/

/-- The image-analysis record (`results` dict of `process_image`,
lines 227–237). -/
structure ImageResult where
  objects : List String
  faces : List Face
  text : String
  scenes : List Scene
  colors : List (RGB × ℚ)
  landmarks : List String
  safety_labels : List String
  description : String
  tags : List String
deriving DecidableEq, Repr

/-- Wrap the rectangles returned by the Haar cascade into face records with
the hard-coded confidence 0.8 (`process_image`, lines 246–256). -/
def mkFaces (rects : List (Nat × Nat × Nat × Nat)) : List Face :=
  rects.map (fun q =>
    { confidence := 8/10, x := q.1, y := q.2.1, width := q.2.2.1, height := q.2.2.2 })

/-- The `description_parts` list (`process_image`, lines 302–309): one part
for detected faces, one if OCR text is non-empty, one naming `scenes[0]`. -/
def descriptionParts (faces : List Face) (text : String) (scenes : List Scene) :
    List String :=
  (if faces.isEmpty then [] else [toString faces.length ++ " face(s) detected"])
    ++ (if text.isEmpty then [] else ["contains text"])
    ++ (match scenes with
        | [] => []
        | s :: _ => [s.name ++ " scene"])

/-- The derived description (`process_image`, line 311): `"Image with "`
followed by the comma-joined parts, or the generic fallback when no part
was produced. -/
def buildDescription (faces : List Face) (text : String) (scenes : List Scene) :
    String :=
  let parts := descriptionParts faces text scenes
  if parts.isEmpty then "Image analysis completed"
  else "Image with " ++ String.intercalate (", ") parts

/-- The derived tag set (`process_image`, lines 313–320): `"people"` when
faces were found, `"text"` when OCR text is non-empty, plus every scene
name; de-duplicated by `list(set(tags))`. -/
def buildTags (faces : List Face) (text : String) (scenes : List Scene) :
    List String :=
  ((if faces.isEmpty then [] else ["people"])
      ++ (if text.isEmpty then [] else ["text"])
      ++ scenes.map (fun s => s.name)).dedup

/-- The image pipeline (`process_image`, lines 217–326).
`decode` embeds `cv2.imdecode` (returns `none` on undecodable bytes, in
which case the source raises `ValueError("Invalid image data")`);
`faceCap` embeds the optional Haar cascade (its exceptions are *not*
caught inside `process_image`, so they propagate); `ocrCap` embeds the
optional `pytesseract` call, which *is* wrapped in `try`/`except` so a
failure leaves `text` at `''`; the OCR output is stripped.  `objects`,
`landmarks` and `safety_labels` are never filled in by the source. -/
def process_image
    (decode : List Nat → Option (List RGB))
    (faceCap : Option (List RGB → Except String (List (Nat × Nat × Nat × Nat))))
    (ocrCap : Option (List RGB → Except String String))
    (image_data : List Nat) : Except String ImageResult :=
  match decode image_data with
  | none => Except.error ("Invalid image data")
  | some pixels =>
    match (match faceCap with
           | none => Except.ok []
           | some f => (f pixels).map mkFaces) with
    | Except.error e => Except.error e
    | Except.ok faces =>
      let text : String :=
        match ocrCap with
        | none => ""
        | some f =>
          match f pixels with
          | Except.ok t => t.trim
          | Except.error _ => ""
      let scenes := sceneHeuristic pixels
      Except.ok
        { objects := []
          faces := faces
          text := text
          scenes := scenes
          colors := colorAnalysis pixels
          landmarks := []
          safety_labels := []
          description := buildDescription faces text scenes
          tags := buildTags faces text scenes }

/-! ## Result envelope (`ProcessingResponse`, lines 504–507, and the
endpoint handlers, lines 509–549) -/

/-- The uniform response envelope: the `ProcessingResponse` pydantic model
(`success`, optional `results`, optional `error`). -/
structure Envelope (α : Type) where
  success : Bool
  results : Option α
  error : Option String
deriving DecidableEq, Repr

/-- How every endpoint wraps a pipeline outcome (lines 509–549): a normal
return becomes `success=True, results=...`; a raised exception is caught and
becomes `success=False, error=str(e)`. -/
def toEnvelope {α : Type} : Except String α → Envelope α
  | Except.ok r => { success := true, results := some r, error := none }
  | Except.error e => { success := false, results := none, error := some e }

/-- The `/process/image` endpoint (`process_image_endpoint`, lines 518–527). -/
def process_image_endpoint
    (decode : List Nat → Option (List RGB))
    (faceCap : Option (List RGB → Except String (List (Nat × Nat × Nat × Nat))))
    (ocrCap : Option (List RGB → Except String String))
    (image_data : List Nat) : Envelope ImageResult :=
  toEnvelope (process_image decode faceCap ocrCap image_data)

/-! ## Text pipeline (`process_text`, lines 127–215)

The whole body is wrapped in one `try`/`except` that logs and *re-raises*,
so an exception from any capability call propagates out of the pipeline —
with the single exception of summarization, whose call has its own inner
`try`/`except` (lines 168–178). -/

/-- One `{label, score}` entry of the sentiment model output
(`self.models['sentiment'](text)[0]`). -/
structure LabelScore where
  label : String
  score : ℚ
deriving DecidableEq, Repr

/-- The merged sentiment record (`results['sentiment']`,
lines 135 and 148–152). -/
structure Sentiment where
  score : ℚ
  label : String
  confidence : ℚ
deriving DecidableEq, Repr

/-- A named-entity record as produced by the NER model: `word`,
`entity_group`, `score` (lines 157–164). -/
structure NerEnt where
  word : String
  entity_group : String
  score : ℚ
deriving DecidableEq, Repr

/-- An entry of `results['entities']` (lines 157–164). -/
structure Entity where
  text : String
  type : String
  confidence : ℚ
deriving DecidableEq, Repr

/-- An entry of `results['keywords']` (lines 185–200). -/
structure Keyword where
  text : String
  relevance : ℚ
deriving DecidableEq, Repr

/-- The parts of a spaCy `doc` that `process_text` reads: the noun-chunk
texts and the named entities as `(text, label)` pairs (lines 181–204). -/
structure NlpDoc where
  nounChunks : List String
  ents : List (String × String)
deriving DecidableEq, Repr

/-- Python `str.lower()` (used for the sentiment label and the entity
group, lines 150 and 160), as a structurally recursive map over the
characters. -/
def pyLower (s : String) : String := String.mk (s.data.map Char.toLower)

/-- Python `max(sentiment_results[0], key=lambda x: x['score'])`: keep the
current best and replace it only on a strictly larger score, so the first
of several maximal entries wins. -/
def pyMaxAux (best : LabelScore) : List LabelScore → LabelScore
  | [] => best
  | x :: xs => pyMaxAux (if best.score < x.score then x else best) xs

/-- The best-scoring sentiment entry (`best_sentiment`, line 147); the
`[]` case is never reached because the source guards on a non-empty list. -/
def bestLabelScore : List LabelScore → LabelScore
  | [] => { label := "", score := 0 }
  | x :: xs => pyMaxAux x xs

/-- Merge the raw sentiment output into the result record (lines 148–152):
the score is negated unless the winning label is exactly `'POSITIVE'`, the
label is lower-cased, the confidence is the raw score. -/
def mergeSentiment (raw : List LabelScore) : Sentiment :=
  let best := bestLabelScore raw
  { score := best.score * (if best.label = "POSITIVE" then 1 else -1)
    label := pyLower best.label
    confidence := best.score }

/-- The text-analysis record (`results` dict of `process_text`,
lines 130–141). -/
structure TextResult where
  extracted_text : String
  language : String
  word_count : Nat
  character_count : Nat
  sentiment : Sentiment
  entities : List Entity
  keywords : List Keyword
  topics : List String
  summary : String
  embeddings : Option (List ℚ)
deriving DecidableEq, Repr

/-- The default text record before any capability runs (lines 130–141):
neutral sentiment, empty lists, `word_count` from whitespace splitting. -/
def baseTextResult (text : String) : TextResult :=
  { extracted_text := text
    language := "en"
    word_count := ((text.split Char.isWhitespace).filter (fun w => w ≠ "")).length
    character_count := text.length
    sentiment := { score := 0, label := "neutral", confidence := 0 }
    entities := []
    keywords := []
    topics := []
    summary := ""
    embeddings := none }

/-- The text pipeline (`process_text`, lines 127–215).  Each capability is
an optional fallible function; an `Except.error` from sentiment, NER, the
spaCy keyword/topic step or the embedding step propagates (the outer
`except` re-raises, line 215), while a summarization failure is swallowed
by its inner `try`/`except` (lines 168–178).  The summarizer runs only when
the text is longer than 500 characters, and its (possibly empty) output
list is modelled as an `Option String`. -/
def process_text
    (sentimentCap : Option (String → Except String (List LabelScore)))
    (nerCap : Option (String → Except String (List NerEnt)))
    (sumCap : Option (String → Except String (Option String)))
    (nlpCap : Option (String → Except String NlpDoc))
    (embCap : Option (String → Except String (List ℚ)))
    (text : String) : Except String TextResult := do
  let r0 := baseTextResult text
  let r1 ← match sentimentCap with
    | none => pure r0
    | some f => do
        let raw ← f text
        pure (if raw.isEmpty then r0 else { r0 with sentiment := mergeSentiment raw })
  let r2 ← match nerCap with
    | none => pure r1
    | some f => do
        let ents ← f text
        pure { r1 with
          entities := ents.map (fun e =>
            { text := e.word, type := pyLower e.entity_group, confidence := e.score }) }
  let r3 := match sumCap with
    | none => r2
    | some f =>
      if 500 < text.length then
        match f text with
        | Except.ok (some s) => { r2 with summary := s }
        | Except.ok none => r2
        | Except.error _ => r2
      else r2
  let r4 ← match nlpCap with
    | none => pure r3
    | some f => do
        let doc ← f text
        let kws :=
          (doc.nounChunks.filter (fun c => 2 < c.length)).map
              (fun c => ({ text := c, relevance := 8/10 } : Keyword))
            ++ doc.ents.map (fun e => ({ text := e.1, relevance := 9/10 } : Keyword))
        pure { r3 with
          keywords := kws.take 20
          topics := (doc.ents.map (fun e => e.2)).dedup }
  match embCap with
  | none => pure r4
  | some f => do
      let v ← f text
      pure { r4 with embeddings := some v }

/-- The `/process/text` endpoint (`process_text_endpoint`, lines 509–516). -/
def process_text_endpoint
    (sentimentCap : Option (String → Except String (List LabelScore)))
    (nerCap : Option (String → Except String (List NerEnt)))
    (sumCap : Option (String → Except String (Option String)))
    (nlpCap : Option (String → Except String NlpDoc))
    (embCap : Option (String → Except String (List ℚ)))
    (text : String) : Envelope TextResult :=
  toEnvelope (process_text sentimentCap nerCap sumCap nlpCap embCap text)

/-! ## Audio pipeline (`process_audio`, lines 328–396)

The raw audio bytes are written to a fresh scratch file (line 332); an inner
`try`/`finally` (lines 356–390) guarantees that this file is unlinked on
every exit path once it has been written.  The librosa feature block runs
first and its exceptions propagate; the speech-recognition block handles
`UnknownValueError` and `RequestError` itself.  The pipelines below thread
the list of scratch files currently on disk so that the temp-resource
claims can be stated. -/

/-- The transcription part of an audio result (lines 338–343). -/
structure Transcription where
  text : String
  confidence : ℚ
  language : String
  speakers : List String
deriving DecidableEq, Repr

/-- The audio-feature part of an audio result (lines 344–350). -/
structure AudioFeatures where
  volume : ℚ
  pitch : ℚ
  tempo : ℚ
  music_genre : String
  instruments : List String
deriving DecidableEq, Repr

/-- What the librosa block computes when it succeeds (lines 358–372):
volume, pitch (left 0 when no clear pitch) and tempo. -/
structure LibrosaOut where
  volume : ℚ
  pitch : ℚ
  tempo : ℚ
deriving DecidableEq, Repr

/-- The audio-analysis record (`results` dict of `process_audio`,
lines 337–354). -/
structure AudioResult where
  transcription : Transcription
  audio_features : AudioFeatures
  emotions : List String
  noise_level : ℚ
  silence_segments : List ℚ
deriving DecidableEq, Repr

/-- The three possible outcomes of
`recognize_google` (lines 378–385): a transcribed text, an
`UnknownValueError` (speech not understood) or a `RequestError`. -/
inductive RecognizeOutcome where
  | ok (text : String)
  | unknownValue
  | requestError (msg : String)
deriving DecidableEq, Repr

/-- How `process_audio` fills `results['transcription']` from the
recogniser outcome (lines 378–385): success stores the text with the
hard-coded confidence 0.8; `UnknownValueError` stores the sentinel string
`"Could not understand audio"`; `RequestError` is logged and the text is
left empty. -/
def transcriptionFor : RecognizeOutcome → Transcription
  | RecognizeOutcome.ok t =>
      { text := t, confidence := 8/10, language := "en", speakers := [] }
  | RecognizeOutcome.unknownValue =>
      { text := "Could not understand audio", confidence := 0, language := "en",
        speakers := [] }
  | RecognizeOutcome.requestError _ =>
      { text := "", confidence := 0, language := "en", speakers := [] }

/-- The default (all-zero) audio features (lines 344–350). -/
def defaultAudioFeatures : AudioFeatures :=
  { volume := 0, pitch := 0, tempo := 0, music_genre := "", instruments := [] }

/-- The audio pipeline (`process_audio`, lines 328–396).  `librosa` is the
optional feature-extraction collaborator (its exception propagates out of
the inner `try`, through the `finally`, and is re-raised by the outer
`except`); `recognizer` is the optional speech recogniser.  `audioTempName`
is the unique scratch-file name (`temp_audio_<ts>.wav`) and `fs` the
scratch files existing before the call; the returned list is the scratch
directory content afterwards — the `finally` (lines 387–390) always
unlinks the temp file. -/
def process_audio (librosa : Option (Except String LibrosaOut))
    (recognizer : Option RecognizeOutcome)
    (audioTempName : String) (fs : List String) :
    Except String AudioResult × List String :=
  let fs1 := audioTempName :: fs
  let body : Except String AudioResult :=
    (match librosa with
      | none => Except.ok defaultAudioFeatures
      | some r => r.map (fun (l : LibrosaOut) =>
          { volume := l.volume, pitch := l.pitch, tempo := l.tempo,
            music_genre := "", instruments := [] })).map
      (fun (feats : AudioFeatures) =>
        { transcription :=
            match recognizer with
            | none =>
              { text := "", confidence := 0, language := "en", speakers := [] }
            | some o => transcriptionFor o
          audio_features := feats
          emotions := []
          noise_level := 0
          silence_segments := [] })
  (body, fs1.erase audioTempName)

/-! ## Video pipeline (`process_video`, lines 398–482) -/

/-- What probing the container with `VideoFileClip` yields (lines 427–445):
size, frame rate, duration and whether an audio track is present.  A
corrupt container makes the probe raise instead. -/
structure VideoProbe where
  w : Nat
  h : Nat
  fps : ℚ
  duration : ℚ
  hasAudio : Bool
deriving DecidableEq, Repr

/-- The motion placeholder of a video result (lines 411–415): never
computed by real analysis. -/
structure Motion where
  intensity : ℚ
  direction : String
  camera_movement : String
deriving DecidableEq, Repr

/-- The quality metadata of a video result (lines 416–421). -/
structure VideoQuality where
  resolution : String
  frame_rate : ℚ
  bitrate : Nat
  stability : ℚ
deriving DecidableEq, Repr

/-- One per-frame segment of the scene timeline (lines 462–468):
`start` is the sampled timestamp, `stop` models the `'end'` key
(= start + duration / sample count), plus the delegated image
description and object list. -/
structure VideoSegment where
  start : ℚ
  stop : ℚ
  description : String
  keyframes : List String
  objects : List String
deriving DecidableEq, Repr

/-- The video-analysis record (`results` dict of `process_video`,
lines 407–422). -/
structure VideoResult where
  scenes : List VideoSegment
  faces : List Face
  audio : Option AudioResult
  motion : Motion
  quality : VideoQuality
deriving DecidableEq, Repr

/-- The number of sampled frames (line 446):
`np.linspace(0, duration, min(10, int(duration)))` has
`min(10, int(duration))` entries; for a non-negative duration Python
`int()` truncation agrees with `Int.toNat ∘ floor`. -/
def sampleCount (duration : ℚ) : Nat := min 10 (Int.toNat ⌊duration⌋)

/-- The sampled timestamps (line 446): `np.linspace(0, duration, n)` —
empty for `n = 0`, `[0]` for `n = 1`, and `i * duration / (n - 1)` for
`i = 0, …, n-1` otherwise (the endpoint is included). -/
def sampleTimes (duration : ℚ) : List ℚ :=
  let n := sampleCount duration
  if n = 0 then []
  else if n = 1 then [0]
  else (List.range n).map (fun (i : Nat) => (i : ℚ) * duration / ((n : ℚ) - 1))

/-- The frame loop (lines 448–470): each sampled timestamp is analysed by
the delegated image pipeline (outcome `frameOutcome i` for the `i`-th
frame); a raised exception aborts the loop and propagates.  `n` is
`len(sample_times)`, used for each segment's `'end'` value. -/
def scenesLoop (D : ℚ) (n : Nat)
    (frameOutcome : Nat → Except String ImageResult) :
    List ℚ → Nat → Except String (List VideoSegment)
  | [], _ => Except.ok []
  | t :: ts, i =>
    match frameOutcome i with
    | Except.error e => Except.error e
    | Except.ok fa =>
      match scenesLoop D n frameOutcome ts (i + 1) with
      | Except.error e => Except.error e
      | Except.ok rest =>
        Except.ok
          ({ start := t, stop := t + D / (n : ℚ), description := fa.description,
             keyframes := [], objects := fa.objects } :: rest)

/-- The assembled scene timeline of one video (lines 444–470). -/
def buildScenes (D : ℚ) (frameOutcome : Nat → Except String ImageResult) :
    Except String (List VideoSegment) :=
  let ts := sampleTimes D
  scenesLoop D ts.length frameOutcome ts 0

/-- The video pipeline (`process_video`, lines 398–482), with the video
library present.  The raw bytes are written to the scratch file
`videoTempName` (line 402); `probe` is the `VideoFileClip` outcome; when an
audio track exists it is extracted (`extractAudio` outcome) to
`audioPathName` (`temp_video_<ts>.wav`, line 435) and the audio pipeline is
delegated to — note that `audio_path.unlink()` (line 442) runs only on the
normal path, it is *not* in a `finally`; the frame loop then runs; the
outer `finally` (lines 473–476) always unlinks `videoTempName`; the outer
`except` re-raises (line 482).  Returns the pipeline outcome together with
the scratch files left on disk. -/
def process_video
    (probe : Except String VideoProbe)
    (extractAudio : Except String Unit)
    (librosa : Option (Except String LibrosaOut))
    (recognizer : Option RecognizeOutcome)
    (frameOutcome : Nat → Except String ImageResult)
    (videoTempName audioPathName audioTempName : String) :
    Except String VideoResult × List String :=
  let fs0 : List String := [videoTempName]
  let runBody : Except String VideoResult × List String :=
    match probe with
    | Except.error e => (Except.error e, fs0)
    | Except.ok p =>
      let audioStep : Except String (Option AudioResult) × List String :=
        if p.hasAudio then
          match extractAudio with
          | Except.error e => (Except.error e, fs0)
          | Except.ok _ =>
            let fs1 := audioPathName :: fs0
            match process_audio librosa recognizer audioTempName fs1 with
            | (Except.error e, fs2) => (Except.error e, fs2)
            | (Except.ok a, fs2) => (Except.ok (some a), fs2.erase audioPathName)
        else (Except.ok none, fs0)
      match audioStep with
      | (Except.error e, fs) => (Except.error e, fs)
      | (Except.ok audio, fs) =>
        match buildScenes p.duration frameOutcome with
        | Except.error e => (Except.error e, fs)
        | Except.ok scenes =>
          (Except.ok
            { scenes := scenes
              faces := []
              audio := audio
              motion := { intensity := 0, direction := "", camera_movement := "static" }
              quality :=
                { resolution := toString p.w ++ "x" ++ toString p.h,
                  frame_rate := p.fps, bitrate := 0, stability := 0 } }, fs)
  (runBody.1, runBody.2.erase videoTempName)

/-- An all-default image result, used to instantiate frame outcomes in
concrete evaluations. -/
def emptyImageResult : ImageResult :=
  { objects := [], faces := [], text := "", scenes := [], colors := [],
    landmarks := [], safety_labels := [], description := "", tags := [] }

/-! ## Helper lemmas -/

/-- The scene heuristic appends exactly one label (lines 292–300). -/
theorem sceneHeuristic_length (pixels : List RGB) :
    (sceneHeuristic pixels).length = 1 := by
  unfold sceneHeuristic
  split_ifs <;> rfl

/-- No description assembled from parts equals the generic fallback. -/
theorem imageWith_ne (s : String) :
    "Image with " ++ s ≠ "Image analysis completed" := by
  intro h
  have h1 : ("Image with " ++ s).data = ("Image analysis completed" : String).data := by
    rw [h]
  rw [String.data_append] at h1
  have h2 : (("Image with " : String).data ++ s.data).take 11
      = (("Image analysis completed" : String).data).take 11 := by rw [h1]
  have h3 : (("Image with " : String).data ++ s.data).take 11
      = ("Image with " : String).data := by
    have hlen : ("Image with " : String).data.length = 11 := by decide
    rw [← hlen, List.take_left]
  rw [h3] at h2
  exact absurd h2 (by decide)

/-- With at least one scene label present the parts list is non-empty. -/
theorem descriptionParts_ne_nil (faces : List Face) (text : String)
    (s : Scene) (rest : List Scene) :
    descriptionParts faces text (s :: rest) ≠ [] := by
  simp [descriptionParts]

/-- With at least one scene label the description is derived from the
parts, not the fallback. -/
theorem buildDescription_scene (faces : List Face) (text : String)
    (s : Scene) (rest : List Scene) :
    buildDescription faces text (s :: rest)
      = "Image with "
        ++ String.intercalate (", ") (descriptionParts faces text (s :: rest)) := by
  unfold buildDescription
  rw [if_neg]
  intro h
  exact descriptionParts_ne_nil faces text s rest (List.isEmpty_iff.mp h)

/-- With at least one scene label the tag list is non-empty. -/
theorem buildTags_ne_nil (faces : List Face) (text : String)
    (s : Scene) (rest : List Scene) :
    buildTags faces text (s :: rest) ≠ [] := by
  simp [buildTags, List.dedup_eq_nil]

/-- Characterisation of a successful image-pipeline run: the bytes decoded
and the face step succeeded, and every field of the result is as assembled
at lines 227–320. -/
theorem process_image_ok
    (decode : List Nat → Option (List RGB))
    (faceCap : Option (List RGB → Except String (List (Nat × Nat × Nat × Nat))))
    (ocrCap : Option (List RGB → Except String String))
    (image_data : List Nat) (r : ImageResult)
    (h : process_image decode faceCap ocrCap image_data = Except.ok r) :
    ∃ pixels faces text, decode image_data = some pixels
      ∧ r = { objects := []
              faces := faces
              text := text
              scenes := sceneHeuristic pixels
              colors := colorAnalysis pixels
              landmarks := []
              safety_labels := []
              description := buildDescription faces text (sceneHeuristic pixels)
              tags := buildTags faces text (sceneHeuristic pixels) } := by
  unfold process_image at h
  split at h
  · exact absurd h (by simp)
  · next pixels hdec =>
    split at h
    · exact absurd h (by simp)
    · next faces hface =>
      injection h with h2
      exact ⟨pixels, faces, _, hdec, h2.symm⟩

/-! ## Claim theorems -/

/-- Claim C8: for every decoded image the scene heuristic produces exactly
one label from the per-channel average color — `outdoor` with confidence
0.7 when the blue and green averages exceed their thresholds (150 and 100),
else `indoor` with confidence 0.6 when overall brightness is below 100,
else `mixed` with confidence 0.5.  The three conditional conjuncts are
stated over separate images so that each can be instantiated. -/
theorem scene_heuristic_rule (px0 px1 px2 px3 : List RGB) :
    (sceneHeuristic px0).length = 1
    ∧ (150 < avgB px1 → 100 < avgG px1 →
        sceneHeuristic px1 = [{ name := "outdoor", confidence := 7/10 }])
    ∧ (¬(150 < avgB px2 ∧ 100 < avgG px2) →
        (avgR px2 + avgG px2 + avgB px2) / 3 < 100 →
        sceneHeuristic px2 = [{ name := "indoor", confidence := 6/10 }])
    ∧ (¬(150 < avgB px3 ∧ 100 < avgG px3) →
        ¬((avgR px3 + avgG px3 + avgB px3) / 3 < 100) →
        sceneHeuristic px3 = [{ name := "mixed", confidence := 5/10 }]) := by
  refine ⟨sceneHeuristic_length px0, ?_, ?_, ?_⟩
  · intro hb hg
    unfold sceneHeuristic
    rw [if_pos ⟨hb, hg⟩]
  · intro hn hd
    unfold sceneHeuristic
    rw [if_neg hn, if_pos hd]
  · intro hn hd
    unfold sceneHeuristic
    rw [if_neg hn, if_neg hd]

/-- Witness for C8: a bright blue-green pixel is labelled `outdoor`, a
black pixel `indoor`, a red-dominant pixel of average brightness `mixed`. -/
theorem scene_heuristic_rule_witness :
    sceneHeuristic [⟨0, 200, 200⟩] = [{ name := "outdoor", confidence := 7/10 }]
    ∧ sceneHeuristic [⟨0, 0, 0⟩] = [{ name := "indoor", confidence := 6/10 }]
    ∧ sceneHeuristic [⟨200, 50, 50⟩] = [{ name := "mixed", confidence := 5/10 }] := by
  obtain ⟨-, h2, h3, h4⟩ :=
    scene_heuristic_rule [] [⟨0, 200, 200⟩] [⟨0, 0, 0⟩] [⟨200, 50, 50⟩]
  refine ⟨h2 ?_ ?_, h3 ?_ ?_, h4 ?_ ?_⟩
  · norm_num [avgB]
  · norm_num [avgG]
  · norm_num [avgB, avgG]
  · norm_num [avgR, avgG, avgB]
  · norm_num [avgB, avgG]
  · norm_num [avgR, avgG, avgB]

/-- Claim C10: whenever the image pipeline produces a result (so in
particular the bytes decoded), the scenes list has exactly one entry, the
description names a scene (it is never the generic fallback
`"Image analysis completed"`), and the tag list is non-empty. -/
theorem image_result_always_names_scene
    (decode : List Nat → Option (List RGB))
    (faceCap : Option (List RGB → Except String (List (Nat × Nat × Nat × Nat))))
    (ocrCap : Option (List RGB → Except String String))
    (image_data : List Nat) (r : ImageResult)
    (h : process_image decode faceCap ocrCap image_data = Except.ok r) :
    r.scenes.length = 1
    ∧ r.description ≠ "Image analysis completed"
    ∧ r.tags ≠ [] := by
  obtain ⟨pixels, faces, text, -, rfl⟩ :=
    process_image_ok decode faceCap ocrCap image_data r h
  have hs : (sceneHeuristic pixels).length = 1 := sceneHeuristic_length pixels
  obtain ⟨s, rest, hsr⟩ : ∃ s rest, sceneHeuristic pixels = s :: rest := by
    cases hsc : sceneHeuristic pixels with
    | nil => rw [hsc] at hs; cases hs
    | cons s rest => exact ⟨s, rest, rfl⟩
  refine ⟨hs, ?_, ?_⟩
  · show buildDescription faces text (sceneHeuristic pixels) ≠ _
    rw [hsr, buildDescription_scene]
    exact imageWith_ne _
  · show buildTags faces text (sceneHeuristic pixels) ≠ []
    rw [hsr]
    exact buildTags_ne_nil faces text s rest

/-- Witness for C10: a decoder yielding a single black pixel gives a
successful result whose scene list, description and tags satisfy the
claim. -/
theorem image_result_always_names_scene_witness :
    process_image (fun _ => some [⟨0, 0, 0⟩]) none none []
      = Except.ok
          { objects := [], faces := [], text := "",
            scenes := sceneHeuristic [⟨0, 0, 0⟩],
            colors := colorAnalysis [⟨0, 0, 0⟩],
            landmarks := [], safety_labels := [],
            description := buildDescription [] ("") (sceneHeuristic [⟨0, 0, 0⟩]),
            tags := buildTags [] ("") (sceneHeuristic [⟨0, 0, 0⟩]) }
    ∧ (sceneHeuristic [⟨0, 0, 0⟩]).length = 1
    ∧ buildDescription [] ("") (sceneHeuristic [⟨0, 0, 0⟩]) ≠ "Image analysis completed"
    ∧ buildTags [] ("") (sceneHeuristic [⟨0, 0, 0⟩]) ≠ [] :=
  ⟨rfl, image_result_always_names_scene (fun _ => some [⟨0, 0, 0⟩]) none none [] _ rfl⟩

/-- Claim C9: every envelope returned by the image endpoint sets exactly
one of `results`/`error`, with `success` mirroring which one is set; and an
undecodable image payload yields `success = false`, a null payload and the
non-empty error message `"Invalid image data"`. -/
theorem envelope_exactly_one
    (decode : List Nat → Option (List RGB))
    (faceCap : Option (List RGB → Except String (List (Nat × Nat × Nat × Nat))))
    (ocrCap : Option (List RGB → Except String String))
    (image_data : List Nat) :
    ((process_image_endpoint decode faceCap ocrCap image_data).success = true
        ↔ ((process_image_endpoint decode faceCap ocrCap image_data).results).isSome = true)
    ∧ (((process_image_endpoint decode faceCap ocrCap image_data).results).isSome = true
        ↔ (process_image_endpoint decode faceCap ocrCap image_data).error = none)
    ∧ (decode image_data = none →
        (process_image_endpoint decode faceCap ocrCap image_data).success = false
        ∧ (process_image_endpoint decode faceCap ocrCap image_data).results = none
        ∧ (process_image_endpoint decode faceCap ocrCap image_data).error
            = some ("Invalid image data")
        ∧ ("Invalid image data" : String) ≠ ("")) := by
  have hnone : decode image_data = none →
      process_image decode faceCap ocrCap image_data
        = Except.error ("Invalid image data") := by
    intro hd
    unfold process_image
    rw [hd]
  unfold process_image_endpoint
  cases hp : process_image decode faceCap ocrCap image_data with
  | ok r =>
    refine ⟨by simp [toEnvelope], by simp [toEnvelope], fun hd => ?_⟩
    rw [hnone hd] at hp
    exact Except.noConfusion hp
  | error e =>
    refine ⟨by simp [toEnvelope], by simp [toEnvelope], fun hd => ?_⟩
    rw [hnone hd] at hp
    injection hp with he
    exact ⟨rfl, rfl, by rw [← he]; rfl, by decide⟩

/-- Witness for C9: with a decoder that rejects the bytes, the envelope is
`success = false`, payload null, error `"Invalid image data"`. -/
theorem envelope_exactly_one_witness :
    ((fun _ : List Nat => (none : Option (List RGB))) [] = none)
    ∧ (process_image_endpoint (fun _ => none) none none []).success = false
    ∧ (process_image_endpoint (fun _ => none) none none []).results = none
    ∧ (process_image_endpoint (fun _ => none) none none []).error
        = some ("Invalid image data")
    ∧ ("Invalid image data" : String) ≠ ("") :=
  ⟨rfl, (envelope_exactly_one (fun _ => none) none none []).2.2 rfl⟩

/-- Every entry of `colorCounts` records the true pixel frequency of its
color. -/
theorem colorCounts_snd {pixels : List RGB} {q : RGB × Nat}
    (h : q ∈ colorCounts pixels) : q.2 = pixels.count q.1 := by
  unfold colorCounts at h
  obtain ⟨c, -, rfl⟩ := List.mem_map.mp h
  rfl

/-- Membership in the sorted count list is membership in `colorCounts`. -/
theorem mem_sorted_counts {pixels : List RGB} {q : RGB × Nat} :
    q ∈ List.insertionSort cntGE (colorCounts pixels) ↔ q ∈ colorCounts pixels :=
  (List.perm_insertionSort cntGE (colorCounts pixels)).mem_iff

/-- Claim C7: color analysis is a pure function of the pixel data (running
it twice yields the identical result); it lists at most five colors, in
descending order of pixel frequency (hence of percentage); each entry's
percentage is its color's exact pixel frequency as a share of all pixels
times 100; and no color of the image left out of the list is more frequent
than any listed one. -/
theorem color_analysis_top5 (pixels : List RGB) :
    colorAnalysis pixels = colorAnalysis pixels
    ∧ (colorAnalysis pixels).length ≤ 5
    ∧ List.Pairwise (fun a b : RGB × ℚ => b.2 ≤ a.2) (colorAnalysis pixels)
    ∧ (∀ p ∈ colorAnalysis pixels,
        p.2 = (pixels.count p.1 : ℚ) / (pixels.length : ℚ) * 100)
    ∧ (∀ c ∈ pixels, c ∉ (colorAnalysis pixels).map Prod.fst →
        ∀ d ∈ (colorAnalysis pixels).map Prod.fst,
          pixels.count c ≤ pixels.count d) := by
  have hsorted : List.Sorted cntGE (List.insertionSort cntGE (colorCounts pixels)) :=
    List.sorted_insertionSort cntGE (colorCounts pixels)
  refine ⟨rfl, ?_, ?_, ?_, ?_⟩
  · unfold colorAnalysis
    rw [List.length_map, List.length_take]
    exact min_le_left _ _
  · unfold colorAnalysis
    refine List.Pairwise.map _ ?_
      (List.Pairwise.sublist (List.take_sublist 5 _) hsorted)
    intro a b hab
    dsimp only
    by_cases hL : pixels.length = 0
    · simp [hL]
    · have hpos : (0 : ℚ) < (pixels.length : ℚ) :=
        Nat.cast_pos.mpr (Nat.pos_of_ne_zero hL)
      have hc : (b.2 : ℚ) ≤ (a.2 : ℚ) := Nat.cast_le.mpr hab
      exact mul_le_mul_of_nonneg_right ((div_le_div_iff_of_pos_right hpos).mpr hc)
        (by norm_num)
  · intro p hp
    unfold colorAnalysis at hp
    obtain ⟨q, hq, rfl⟩ := List.mem_map.mp hp
    rw [colorCounts_snd (mem_sorted_counts.mp (List.mem_of_mem_take hq))]
  · intro c hc hnot d hd
    have hcc : (c, pixels.count c) ∈ colorCounts pixels :=
      List.mem_map.mpr ⟨c, List.mem_dedup.mpr hc, rfl⟩
    have hcs : (c, pixels.count c) ∈ List.insertionSort cntGE (colorCounts pixels) :=
      mem_sorted_counts.mpr hcc
    have hcnot : (c, pixels.count c)
        ∉ (List.insertionSort cntGE (colorCounts pixels)).take 5 := by
      intro hmem
      apply hnot
      exact List.mem_map.mpr
        ⟨((c, pixels.count c).1,
            ((c, pixels.count c).2 : ℚ) / (pixels.length : ℚ) * 100),
          List.mem_map.mpr ⟨(c, pixels.count c), hmem, rfl⟩, rfl⟩
    have hcdrop : (c, pixels.count c)
        ∈ (List.insertionSort cntGE (colorCounts pixels)).drop 5 := by
      have hsplit := List.take_append_drop 5
        (List.insertionSort cntGE (colorCounts pixels))
      have hmem := hcs
      rw [← hsplit, List.mem_append] at hmem
      exact hmem.resolve_left hcnot
    obtain ⟨p, hp, hpd⟩ := List.mem_map.mp hd
    unfold colorAnalysis at hp
    obtain ⟨q, hq, rfl⟩ := List.mem_map.mp hp
    have hrel : cntGE q (c, pixels.count c) :=
      List.Sorted.rel_of_mem_take_of_mem_drop hsorted hq hcdrop
    have hq2 : q.2 = pixels.count q.1 :=
      colorCounts_snd (mem_sorted_counts.mp (List.mem_of_mem_take hq))
    rw [← hpd]
    calc pixels.count c ≤ q.2 := hrel
    _ = pixels.count q.1 := hq2

/-- Witness for C7: on a six-color image, the color dropped from the top-5
list is no more frequent than a listed one. -/
theorem color_analysis_top5_witness :
    ((⟨5, 0, 0⟩ : RGB)
        ∈ ([⟨0, 0, 0⟩, ⟨1, 0, 0⟩, ⟨2, 0, 0⟩, ⟨3, 0, 0⟩, ⟨4, 0, 0⟩, ⟨5, 0, 0⟩] : List RGB))
    ∧ ((⟨5, 0, 0⟩ : RGB)
        ∉ (colorAnalysis
            [⟨0, 0, 0⟩, ⟨1, 0, 0⟩, ⟨2, 0, 0⟩, ⟨3, 0, 0⟩, ⟨4, 0, 0⟩, ⟨5, 0, 0⟩]).map Prod.fst)
    ∧ (([⟨0, 0, 0⟩, ⟨1, 0, 0⟩, ⟨2, 0, 0⟩, ⟨3, 0, 0⟩, ⟨4, 0, 0⟩, ⟨5, 0, 0⟩] : List RGB).count
          ⟨5, 0, 0⟩
        ≤ ([⟨0, 0, 0⟩, ⟨1, 0, 0⟩, ⟨2, 0, 0⟩, ⟨3, 0, 0⟩, ⟨4, 0, 0⟩, ⟨5, 0, 0⟩] : List RGB).count
          ⟨0, 0, 0⟩) := by
  refine ⟨by decide, by decide, ?_⟩
  exact (color_analysis_top5
      [⟨0, 0, 0⟩, ⟨1, 0, 0⟩, ⟨2, 0, 0⟩, ⟨3, 0, 0⟩, ⟨4, 0, 0⟩, ⟨5, 0, 0⟩]).2.2.2.2
    ⟨5, 0, 0⟩ (by decide) (by decide) ⟨0, 0, 0⟩ (by decide)

/-- The number of sampled timestamps is `min(10, int(duration))`
(line 446). -/
theorem sampleTimes_length (D : ℚ) : (sampleTimes D).length = sampleCount D := by
  simp only [sampleTimes]
  by_cases h0 : sampleCount D = 0
  · simp [h0]
  · by_cases h1 : sampleCount D = 1
    · simp [h0, h1]
    · rw [if_neg h0, if_neg h1, List.length_map, List.length_range]

/-- When every frame analysis succeeds, the frame loop returns one segment
per timestamp, each with `stop = start + D / n`. -/
theorem scenesLoop_ok (D : ℚ) (n : Nat) (g : Nat → ImageResult) :
    ∀ (ts : List ℚ) (i : Nat),
      ∃ segs, scenesLoop D n (fun j => Except.ok (g j)) ts i = Except.ok segs
        ∧ segs.length = ts.length
        ∧ ∀ s ∈ segs, s.stop = s.start + D / (n : ℚ) := by
  intro ts
  induction ts with
  | nil => exact fun i => ⟨[], rfl, rfl, by simp⟩
  | cons t ts ih =>
    intro i
    obtain ⟨segs, h1, h2, h3⟩ := ih (i + 1)
    refine ⟨⟨t, t + D / (n : ℚ), (g i).description, [], (g i).objects⟩ :: segs,
      ?_, by simp [h2], ?_⟩
    · simp only [scenesLoop]
      rw [h1]
    · intro s hs
      rcases List.mem_cons.mp hs with h | h
      · subst h; rfl
      · exact h3 s h

/-- When every frame analysis succeeds, `buildScenes` yields
`sampleCount D` segments with the `stop = start + D / count` relation. -/
theorem buildScenes_ok (D : ℚ) (g : Nat → ImageResult) :
    ∃ segs, buildScenes D (fun i => Except.ok (g i)) = Except.ok segs
      ∧ segs.length = sampleCount D
      ∧ ∀ s ∈ segs, s.stop = s.start + D / (((sampleTimes D).length : Nat) : ℚ) := by
  obtain ⟨segs, h1, h2, h3⟩ :=
    scenesLoop_ok D (sampleTimes D).length g (sampleTimes D) 0
  exact ⟨segs, h1, by rw [h2, sampleTimes_length], h3⟩

/-- Claim C5: for every video of non-negative duration `D` the number of
sampled frames — and, in a run where every frame analysis succeeds, the
number of entries of `scenes` — is `min(10, ⌊D⌋)`; in particular `D = 1/2`
gives 0 samples, `D = 7` gives 7 and `D = 25` gives 10; and each segment's
end is its start plus `D` divided by the sample count. -/
theorem frame_sampling_count (D : ℚ) (hD : 0 ≤ D) (fr : Nat → ImageResult) :
    (sampleTimes D).length = min 10 (Int.toNat ⌊D⌋)
    ∧ sampleCount (1/2) = 0 ∧ sampleCount 7 = 7 ∧ sampleCount 25 = 10
    ∧ ∃ segs, buildScenes D (fun i => Except.ok (fr i)) = Except.ok segs
        ∧ segs.length = min 10 (Int.toNat ⌊D⌋)
        ∧ ∀ s ∈ segs, s.stop = s.start + D / (((sampleTimes D).length : Nat) : ℚ) := by
  refine ⟨sampleTimes_length D, ?_, ?_, ?_, buildScenes_ok D fr⟩
  · norm_num [sampleCount]
  · rw [sampleCount]
    norm_num
    rfl
  · rw [sampleCount]
    norm_num

/-- Witness for C5: a 7-second video yields exactly `min 10 7` sampled
frames. -/
theorem frame_sampling_count_witness :
    (0 : ℚ) ≤ 7
    ∧ (sampleTimes 7).length = min 10 (Int.toNat ⌊(7 : ℚ)⌋) :=
  ⟨by norm_num,
    (frame_sampling_count 7 (by norm_num) (fun _ => emptyImageResult)).1⟩

/-- Claim C2 (failing run): on a video with an audio track whose delegated
audio pipeline raises (here: `librosa.load` fails), `process_video`
propagates the failure, and the extracted audio track
(`temp_video.wav`) is left behind in the scratch directory —
`audio_path.unlink()` (line 442) is skipped because it is not in a
`finally`.  Only the raw video file is cleaned up. -/
theorem video_audio_track_leak :
    process_video
        (Except.ok { w := 1920, h := 1080, fps := 30, duration := 12, hasAudio := true })
        (Except.ok ()) (some (Except.error ("librosa failure"))) none
        (fun _ => Except.ok emptyImageResult)
        ("temp_video.mp4") ("temp_video.wav") ("temp_audio.wav")
      = (Except.error ("librosa failure"), [("temp_video.wav" : String)]) := rfl

/-- Claim C3 (counterexample): on a video with an audio track, a failure of
the delegated audio pipeline does *not* degrade `audio` to null — it fails
the entire video request (the exception is re-raised at line 482). -/
theorem video_audio_branch_failure_fails_request :
    (process_video
        (Except.ok { w := 640, h := 480, fps := 24, duration := 5, hasAudio := true })
        (Except.ok ()) (some (Except.error ("audio pipeline failure"))) none
        (fun _ => Except.ok emptyImageResult) ("v.mp4") ("v.wav") ("a.wav")).1
      = Except.error ("audio pipeline failure") := rfl

/-- Claim C3 (amended): a failure anywhere in the audio branch — whether
extracting the audio track fails or the delegated audio pipeline raises —
propagates and fails the whole video request; and a successful video
result carries a null `audio` field exactly when the probed video has no
audio track: null audio implies no track, and with no track the request
succeeds with null audio and populated scenes and quality. -/
theorem video_audio_branch_amended
    (p q : VideoProbe) (e : String)
    (recognizer : Option RecognizeOutcome)
    (extractAudio : Except String Unit)
    (librosa : Option (Except String LibrosaOut))
    (frameOutcome : Nat → Except String ImageResult)
    (fres : Nat → ImageResult)
    (n1 n2 n3 : String) :
    (p.hasAudio = true →
      (process_video (Except.ok p) (Except.error e) librosa recognizer
          frameOutcome n1 n2 n3).1 = Except.error e)
    ∧ (p.hasAudio = true →
      (process_video (Except.ok p) (Except.ok ()) (some (Except.error e)) recognizer
          frameOutcome n1 n2 n3).1 = Except.error e)
    ∧ (∀ r : VideoResult,
      (process_video (Except.ok q) extractAudio librosa recognizer
          frameOutcome n1 n2 n3).1 = Except.ok r → r.audio = none →
        q.hasAudio = false)
    ∧ (q.hasAudio = false →
      ∃ r2, (process_video (Except.ok q) extractAudio librosa recognizer
          (fun i => Except.ok (fres i)) n1 n2 n3).1 = Except.ok r2
        ∧ r2.audio = none
        ∧ r2.quality.resolution = toString q.w ++ "x" ++ toString q.h
        ∧ r2.quality.frame_rate = q.fps
        ∧ r2.scenes.length = min 10 (Int.toNat ⌊q.duration⌋)) := by
  refine ⟨?_, ?_, ?_, ?_⟩
  · intro hp
    simp only [process_video, hp, if_true]
  · intro hp
    simp only [process_video, process_audio, hp, if_true, Except.map]
  · intro r hok haud
    cases hb : q.hasAudio with
    | false => rfl
    | true =>
      exfalso
      simp only [process_video, hb, if_true] at hok
      cases hea : extractAudio with
      | error e2 =>
        rw [hea] at hok
        simp at hok
      | ok u =>
        rw [hea] at hok
        rcases hpa : process_audio librosa recognizer n3 (n2 :: [n1]) with ⟨pa, fs2⟩
        rw [hpa] at hok
        cases pa with
        | error e2 => simp at hok
        | ok a =>
          cases hbs : buildScenes q.duration frameOutcome with
          | error e2 =>
            rw [hbs] at hok
            simp at hok
          | ok scenes =>
            rw [hbs] at hok
            simp only [Except.ok.injEq] at hok
            subst hok
            simp at haud
  · intro hq
    obtain ⟨segs, h1, h2, h3⟩ := buildScenes_ok q.duration fres
    have hv : (process_video (Except.ok q) extractAudio librosa recognizer
          (fun i => Except.ok (fres i)) n1 n2 n3).1
        = Except.ok
            { scenes := segs, faces := [], audio := none,
              motion := { intensity := 0, direction := "", camera_movement := "static" },
              quality :=
                { resolution := toString q.w ++ "x" ++ toString q.h,
                  frame_rate := q.fps, bitrate := 0, stability := 0 } } := by
      simp only [process_video, hq, Bool.false_eq_true, if_false] at h1 ⊢
      rw [h1]
    exact ⟨_, hv, rfl, rfl, rfl, h2⟩

/-- Witness for C3 (amended): a concrete audio-bearing probe fails the
whole request both when the track extraction raises and when the delegated
audio pipeline raises; a concrete audio-free probe succeeds with
`audio = none` and populated scenes and quality, and from that successful
null-audio run the theorem recovers that the probe indeed had no audio
track. -/
theorem video_audio_branch_amended_witness :
    ((process_video
        (Except.ok { w := 1, h := 1, fps := 1, duration := 3, hasAudio := true })
        (Except.error ("boom")) none none (fun _ => Except.ok emptyImageResult)
        ("v.mp4") ("v.wav") ("a.wav")).1 = Except.error ("boom"))
    ∧ ((process_video
        (Except.ok { w := 1, h := 1, fps := 1, duration := 3, hasAudio := true })
        (Except.ok ()) (some (Except.error ("x"))) none
        (fun _ => Except.ok emptyImageResult)
        ("v.mp4") ("v.wav") ("a.wav")).1 = Except.error ("x"))
    ∧ (∃ r2, (process_video
        (Except.ok { w := 2, h := 2, fps := 30, duration := 2, hasAudio := false })
        (Except.ok ()) none none (fun _ => Except.ok emptyImageResult)
        ("v.mp4") ("v.wav") ("a.wav")).1 = Except.ok r2
        ∧ r2.audio = none
        ∧ r2.quality.resolution = toString 2 ++ "x" ++ toString 2
        ∧ r2.quality.frame_rate = 30
        ∧ r2.scenes.length = min 10 (Int.toNat ⌊(2 : ℚ)⌋))
    ∧ ({ w := 2, h := 2, fps := 30, duration := 2, hasAudio := false }
        : VideoProbe).hasAudio = false := by
  have hA := video_audio_branch_amended
    { w := 1, h := 1, fps := 1, duration := 3, hasAudio := true }
    { w := 2, h := 2, fps := 30, duration := 2, hasAudio := false }
    ("boom") none (Except.ok ()) none (fun _ => Except.ok emptyImageResult)
    (fun _ => emptyImageResult) ("v.mp4") ("v.wav") ("a.wav")
  have hB := video_audio_branch_amended
    { w := 1, h := 1, fps := 1, duration := 3, hasAudio := true }
    { w := 2, h := 2, fps := 30, duration := 2, hasAudio := false }
    ("x") none (Except.ok ()) none (fun _ => Except.ok emptyImageResult)
    (fun _ => emptyImageResult) ("v.mp4") ("v.wav") ("a.wav")
  obtain ⟨r2, hr2, haud, hres, hfps, hlen⟩ := hA.2.2.2 rfl
  exact ⟨hA.1 rfl, hB.2.1 rfl, ⟨r2, hr2, haud, hres, hfps, hlen⟩,
    hA.2.2.1 r2 hr2 haud⟩

/-- Claim C4 (counterexample): when the recogniser reports that no speech
was understood (`UnknownValueError`), the transcription text is *not* left
empty — the source stores the sentinel message
`"Could not understand audio"` (line 383). -/
theorem transcription_unknown_value_sentinel :
    ((process_audio none (some RecognizeOutcome.unknownValue) ("temp_audio.wav") []).1
      = Except.ok
          { transcription :=
              { text := "Could not understand audio", confidence := 0,
                language := "en", speakers := [] }
            audio_features := defaultAudioFeatures
            emotions := []
            noise_level := 0
            silence_segments := [] })
    ∧ ("Could not understand audio" : String) ≠ ("") := ⟨rfl, by decide⟩

/-- Claim C4 (amended): `UnknownValueError` stores the sentinel text
`"Could not understand audio"` with confidence 0 (so it is distinguishable
from a successful transcription, but not by an empty string); only a
request-level `RequestError` leaves the text empty; neither aborts the
audio pipeline. -/
theorem transcription_amended (l : LibrosaOut) (m nm : String) (fs : List String) :
    ((process_audio (some (Except.ok l)) (some RecognizeOutcome.unknownValue) nm fs).1
      = Except.ok
          { transcription :=
              { text := "Could not understand audio", confidence := 0,
                language := "en", speakers := [] }
            audio_features :=
              { volume := l.volume, pitch := l.pitch, tempo := l.tempo,
                music_genre := "", instruments := [] }
            emotions := []
            noise_level := 0
            silence_segments := [] })
    ∧ ((process_audio (some (Except.ok l)) (some (RecognizeOutcome.requestError m)) nm fs).1
      = Except.ok
          { transcription :=
              { text := "", confidence := 0, language := "en", speakers := [] }
            audio_features :=
              { volume := l.volume, pitch := l.pitch, tempo := l.tempo,
                music_genre := "", instruments := [] }
            emotions := []
            noise_level := 0
            silence_segments := [] }) := ⟨rfl, rfl⟩

/-- Claim C1 (counterexample): with the sentiment capability present but
throwing, `process_text` does not return a degraded success — the whole
pipeline invocation fails (the outer `except` at line 215 re-raises). -/
theorem text_capability_failure_propagates :
    process_text (some (fun _ => Except.error ("sentiment model failure")))
        none none none none ("I love this!")
      = Except.error ("sentiment model failure") := rfl

/-- Claim C1 (amended): a throw from the sentiment, entity-extraction,
keyword/topic (spaCy) or embeddings capability propagates out of
`process_text` and fails the whole request — the web layer then returns an
error envelope; only a summarization failure is caught (lines 168–178),
leaving every field of the result at its default. -/
theorem text_pipeline_failure_amended (e : String) (text : String) :
    (process_text (some (fun _ => Except.error e)) none none none none text
      = Except.error e)
    ∧ (process_text none (some (fun _ => Except.error e)) none none none text
      = Except.error e)
    ∧ (process_text none none none (some (fun _ => Except.error e)) none text
      = Except.error e)
    ∧ (process_text none none none none (some (fun _ => Except.error e)) text
      = Except.error e)
    ∧ (process_text none none (some (fun _ => Except.error e)) none none text
      = Except.ok (baseTextResult text))
    ∧ (process_text_endpoint (some (fun _ => Except.error e)) none none none none text
      = { success := false, results := none, error := some e }) := by
  refine ⟨rfl, rfl, rfl, rfl, ?_, rfl⟩
  by_cases h : 500 < text.length
  · simp only [process_text, h, if_true]
    rfl
  · simp only [process_text, h, if_false]
    rfl

/-- The Python `max` scan returns either its accumulator or a list
element. -/
theorem pyMaxAux_mem : ∀ (xs : List LabelScore) (b : LabelScore),
    pyMaxAux b xs = b ∨ pyMaxAux b xs ∈ xs := by
  intro xs
  induction xs with
  | nil => exact fun b => Or.inl rfl
  | cons x xs ih =>
    intro b
    rcases ih (if b.score < x.score then x else b) with h | h
    · rw [pyMaxAux, h]
      by_cases hc : b.score < x.score
      · rw [if_pos hc]
        exact Or.inr (List.mem_cons_self x xs)
      · rw [if_neg hc]
        exact Or.inl rfl
    · rw [pyMaxAux]
      exact Or.inr (List.mem_cons_of_mem x h)

/-- The winning sentiment entry is drawn from the model's output list. -/
theorem bestLabelScore_mem {raw : List LabelScore} (h : raw ≠ []) :
    bestLabelScore raw ∈ raw := by
  cases raw with
  | nil => exact absurd rfl h
  | cons x xs =>
    rw [bestLabelScore]
    rcases pyMaxAux_mem xs x with h2 | h2
    · rw [h2]
      exact List.mem_cons_self x xs
    · exact List.mem_cons_of_mem x h2

/-- Claim C6: with the sentiment capability present and raw scores in
`[0, 1]`, the merged record has score in `[-1, 1]` and confidence in
`[0, 1]`; and when the winning entry carries the positive marker label
`'POSITIVE'` (the source compares against exactly that string, line 149)
with a positive score, the returned label is `"positive"` and the returned
score is positive. -/
theorem sentiment_merge (raw : List LabelScore) (hne : raw ≠ [])
    (hb : ∀ x ∈ raw, 0 ≤ x.score ∧ x.score ≤ 1) :
    (-1 ≤ (mergeSentiment raw).score ∧ (mergeSentiment raw).score ≤ 1
      ∧ 0 ≤ (mergeSentiment raw).confidence ∧ (mergeSentiment raw).confidence ≤ 1)
    ∧ ((bestLabelScore raw).label = "POSITIVE" → 0 < (bestLabelScore raw).score →
        (mergeSentiment raw).label = "positive" ∧ 0 < (mergeSentiment raw).score) := by
  obtain ⟨h0, h1⟩ := hb (bestLabelScore raw) (bestLabelScore_mem hne)
  constructor
  · unfold mergeSentiment
    dsimp only
    by_cases hl : (bestLabelScore raw).label = "POSITIVE"
    · rw [if_pos hl, mul_one]
      exact ⟨by linarith, h1, h0, h1⟩
    · rw [if_neg hl]
      refine ⟨by linarith, by nlinarith, h0, h1⟩
  · intro hl hpos
    unfold mergeSentiment
    dsimp only
    rw [if_pos hl, mul_one, hl]
    exact ⟨by decide, hpos⟩

/-- Witness for C6: on the output list
`[{label POSITIVE, score 9/10}, {label NEGATIVE, score 1/10}]` the merged
record is labelled `"positive"` with positive score. -/
theorem sentiment_merge_witness :
    (([⟨"POSITIVE", 9/10⟩, ⟨"NEGATIVE", 1/10⟩] : List LabelScore) ≠ [])
    ∧ (mergeSentiment [⟨"POSITIVE", 9/10⟩, ⟨"NEGATIVE", 1/10⟩]).label = "positive"
    ∧ 0 < (mergeSentiment [⟨"POSITIVE", 9/10⟩, ⟨"NEGATIVE", 1/10⟩]).score := by
  have hbest : bestLabelScore [⟨"POSITIVE", 9/10⟩, ⟨"NEGATIVE", 1/10⟩]
      = ⟨"POSITIVE", 9/10⟩ := by
    norm_num [bestLabelScore, pyMaxAux]
  have h := sentiment_merge [⟨"POSITIVE", 9/10⟩, ⟨"NEGATIVE", 1/10⟩]
    (by simp) (by simp [List.forall_mem_cons]; norm_num)
  exact ⟨by simp, (h.2 (by rw [hbest]) (by rw [hbest]; norm_num)).1,
    (h.2 (by rw [hbest]) (by rw [hbest]; norm_num)).2⟩
